import Mathlib

/-!
Verification of the control-plane core of the windowed data-movement pipeline
(repository `simple-ingestion-projects`, `src/project_01/framework`).

The Python source is shallowly embedded: dictionaries become structures with
`Option` fields (a `none` models a missing key or a `null`/`None` value),
raised exceptions become `Except` results, timestamps become integer seconds,
and external effects (the warehouse cursor's reported row counts, alert and
rollback success) become explicit boolean/numeric inputs.
-/

namespace Ingestion

/-! ## Duration parser

Embeds `re.search(r"(\d+)<unit>", s)` as used by both
`drive_scripts.parse_duration_string_to_seconds` and
`stale_detection_functions.parse_duration_to_seconds`.

Python `re.search` returns the leftmost match; `\d+` is greedy, and since the
unit letter is not a digit, a match at position `i` succeeds exactly when the
maximal digit run starting at `i` is immediately followed by the unit letter.
Characters are ASCII (the repository's duration strings are ASCII).
-/

/-- Value of a decimal digit string, as Python `int(...)` computes it. -/
def digitsToNat (ds : List Char) : Nat :=
  ds.foldl (fun n c => n * 10 + (c.toNat - '0'.toNat)) 0

/-- Single left-to-right scan implementing the leftmost match of `(\d+)u`:
`run` holds the digit run immediately preceding the current position. A match
is reported at the first non-digit character equal to `u` that is preceded by
a non-empty digit run; since digit runs are disjoint, the first such unit
character also yields the leftmost match start, agreeing with `re.search`. -/
def findUnitMatchAux (u : Char) (run : List Char) : List Char → Option Nat
  | [] => none
  | c :: cs =>
    if c.isDigit then findUnitMatchAux u (run ++ [c]) cs
    else if c = u && !run.isEmpty then some (digitsToNat run)
    else findUnitMatchAux u [] cs

/-- Leftmost match of the regex `(\d+)u` in a character list: returns the
digit group of the first maximal digit run that is immediately followed by
the character `u`, as Python `re.search(r"(\d+)u", s)` does. -/
def findUnitMatch (u : Char) (cs : List Char) : Option Nat :=
  findUnitMatchAux u [] cs

deriving instance DecidableEq for Except

/-- `stale_detection_functions.parse_duration_to_seconds`: sums the first
match of each of `d`, `h`, `m`, `s`, then raises iff the **sum** is zero. -/
def parse_duration_to_seconds (duration_str : String) : Except String Nat :=
  let cs := duration_str.data
  let total : Nat :=
    (match findUnitMatch 'd' cs with | some v => v * 24 * 60 * 60 | none => 0)
    + (match findUnitMatch 'h' cs with | some v => v * 60 * 60 | none => 0)
    + (match findUnitMatch 'm' cs with | some v => v * 60 | none => 0)
    + (match findUnitMatch 's' cs with | some v => v | none => 0)
  if total = 0 then
    .error "No valid duration units found"
  else
    .ok total

/-- `drive_scripts.parse_duration_string_to_seconds`: iterates the pattern map
`d/h/m/s` in order, tracking whether **any** unit matched, and raises iff no
unit matched at all. -/
def parse_duration_string_to_seconds (duration_string : String) : Except String Nat :=
  let cs := duration_string.data
  let step := fun (acc : Nat × Bool) (p : Char × Nat) =>
    match findUnitMatch p.1 cs with
    | some value => (acc.1 + value * p.2, true)
    | none => acc
  let r := [('d', 86400), ('h', 3600), ('m', 60), ('s', 1)].foldl step (0, false)
  if r.2 then .ok r.1
  else .error "No valid time units (d/h/m/s) found in string"

/-! ## Work-unit rows (`stale_detection_functions.py`)

A drive-table row as the stale-reclaimer sees it. Python dictionary values
become `Option` fields: `none` models both a missing key and a `null` value
(the code only ever reads these fields through `.get` or compares them to
literals, so the two are indistinguishable to it). `PIPELINE_START_TIME` is
modelled as tz-aware epoch seconds (`Option Int`): `none` covers a missing,
null or unparsable value, for which `datetime.fromisoformat` (or the
subtraction against the tz-aware now) raises and the row is skipped. -/

structure PhaseBlock where
  enabled : Option Bool
  status : Option String
  start_ts : Option String
  end_ts : Option String
  duration : Option String
deriving DecidableEq, Repr

structure DriveRecord where
  pipeline_status : Option String
  pipeline_start_time : Option Int
  pipeline_end_time : Option String
  pipeline_duration : Option String
  pipeline_exp_duration : Option String
  phase_completed : Option String
  retry_attempt_number : Option Int
  src_stg_xfer : PhaseBlock
  src_stg_audit : PhaseBlock
  stg_tgt_xfer : PhaseBlock
  stg_tgt_audit : PhaseBlock
  src_tgt_audit : PhaseBlock
deriving DecidableEq, Repr

/-- The five phases, in the fixed order of the resetter's cascade. -/
inductive Phase
  | srcStgXfer | srcStgAudit | stgTgtXfer | stgTgtAudit | srcTgtAudit
deriving DecidableEq, Repr

def getPhase (r : DriveRecord) : Phase → PhaseBlock
  | .srcStgXfer => r.src_stg_xfer
  | .srcStgAudit => r.src_stg_audit
  | .stgTgtXfer => r.stg_tgt_xfer
  | .stgTgtAudit => r.stg_tgt_audit
  | .srcTgtAudit => r.src_tgt_audit

/-- The four in-place writes `record['P_STATUS'] = 'PENDING'` /
`record['P_*'] = None` of a stuck phase. -/
def resetPhaseBlock (b : PhaseBlock) : PhaseBlock :=
  { b with status := some "PENDING", start_ts := none, end_ts := none, duration := none }

/-! `convert_to_pending`'s ~240-line nested cascade. In the source the
subtree that continues with phase `k+1` is duplicated verbatim under both the
"`k` disabled" and "`k` enabled but not `IN_PROCESS`" branches; here each
subtree is a named function and the duplication becomes two calls, which is
the same decision tree. A phase is reset exactly when its `P_ENABLED` is
`True` and its `P_STATUS` is `'IN_PROCESS'`, and the cascade then stops. -/

def try_src_tgt_audit (r : DriveRecord) : DriveRecord :=
  if r.src_tgt_audit.enabled = some true then
    if r.src_tgt_audit.status = some "IN_PROCESS" then
      { r with src_tgt_audit := resetPhaseBlock r.src_tgt_audit }
    else r
  else r

def try_stg_tgt_audit (r : DriveRecord) : DriveRecord :=
  if r.stg_tgt_audit.enabled = some true then
    if r.stg_tgt_audit.status = some "IN_PROCESS" then
      { r with stg_tgt_audit := resetPhaseBlock r.stg_tgt_audit }
    else try_src_tgt_audit r
  else try_src_tgt_audit r

def try_stg_tgt_xfer (r : DriveRecord) : DriveRecord :=
  if r.stg_tgt_xfer.enabled = some true then
    if r.stg_tgt_xfer.status = some "IN_PROCESS" then
      { r with stg_tgt_xfer := resetPhaseBlock r.stg_tgt_xfer }
    else try_stg_tgt_audit r
  else try_stg_tgt_audit r

def try_src_stg_audit (r : DriveRecord) : DriveRecord :=
  if r.src_stg_audit.enabled = some true then
    if r.src_stg_audit.status = some "IN_PROCESS" then
      { r with src_stg_audit := resetPhaseBlock r.src_stg_audit }
    else try_stg_tgt_xfer r
  else try_stg_tgt_xfer r

def try_src_stg_xfer (r : DriveRecord) : DriveRecord :=
  if r.src_stg_xfer.enabled = some true then
    if r.src_stg_xfer.status = some "IN_PROCESS" then
      { r with src_stg_xfer := resetPhaseBlock r.src_stg_xfer }
    else try_src_stg_audit r
  else try_src_stg_audit r

/-- `record.get('RETRY_ATTEMPT_NUMBER', 0) or 0`: a missing key or a `None`
value counts as 0 (and Python's `or 0` maps 0 to 0). -/
def retryOrZero (r : DriveRecord) : Int :=
  match r.retry_attempt_number with
  | none => 0
  | some n => n

/-- Per-record body of `convert_to_pending` (the loop body of lines 210-465):
the `PHASE_COMPLETED`-empty branch clears all four top-level fields, the other
branch runs the phase cascade; then the common footer sets
`PIPELINE_STATUS = 'PENDING'`, `PIPELINE_START_TIME = None` and increments
`RETRY_ATTEMPT_NUMBER` (missing or `None` counted as 0). -/
def convert_to_pending_record (r : DriveRecord) : DriveRecord :=
  let r1 :=
    if r.phase_completed = none ∨ r.phase_completed = some "" then
      { r with pipeline_status := some "PENDING", pipeline_start_time := none,
               pipeline_end_time := none, pipeline_duration := none }
    else
      try_src_stg_xfer r
  let current_retry : Int := retryOrZero r1
  { r1 with pipeline_status := some "PENDING", pipeline_start_time := none,
            retry_attempt_number := some (current_retry + 1) }

/-- `convert_to_pending` over the stale list: every record converts (the body
is pure field assignment, so the per-record `except` never fires) and
`converted_count` is the number of records. -/
def convert_to_pending (stale_records : List DriveRecord) : List DriveRecord × Nat :=
  (stale_records.map convert_to_pending_record, stale_records.length)

/-! ## Staleness evaluator (`identify_stale_records`) -/

/-- `record.get('PIPELINE_EXP_DURATION') or config['PIPELINE_EXP_DURATION']`:
the config default is used when the row's value is missing, `None` or the
empty string (the falsy strings). -/
def expectedDurationStr (r : DriveRecord) (default_exp_duration : String) : String :=
  match r.pipeline_exp_duration with
  | none => default_exp_duration
  | some s => if s = "" then default_exp_duration else s

/-- The per-row body of `identify_stale_records`' `try`: `none` models the
`except` path (parse failure → warning + skip), `some b` a completed check.
`stale_threshold_factor` is an arbitrary number, modelled as `ℚ`;
`actual_duration = current_time − start_time` in seconds. -/
def staleCheck (current_time : Int) (stale_threshold_factor : ℚ)
    (default_exp_duration : String) (r : DriveRecord) : Option Bool :=
  match parse_duration_to_seconds (expectedDurationStr r default_exp_duration) with
  | .error _ => none
  | .ok expected_duration_seconds =>
    match r.pipeline_start_time with
    | none => none
    | some start_time =>
      let actual_duration : Int := current_time - start_time
      let threshold_seconds : ℚ := stale_threshold_factor * expected_duration_seconds
      some (decide ((actual_duration : ℚ) > threshold_seconds))

/-- `identify_stale_records`: keeps, in input order, exactly the rows whose
staleness check ran to completion and came out `true`; rows whose check
raised are skipped. -/
def identify_stale_records (current_time : Int) (stale_threshold_factor : ℚ)
    (default_exp_duration : String) (records : List DriveRecord) : List DriveRecord :=
  records.filter
    (fun r => staleCheck current_time stale_threshold_factor default_exp_duration r = some true)

/-! ## Reclaimer orchestrator (`detect_and_handle_stale_processes`) -/

structure StaleCounts where
  total_found : Nat
  stale_found : Nat
  converted_count : Nat
deriving DecidableEq, Repr

/-- `detect_and_handle_stale_processes` (stale_detection_functions.py lines
12-81). The in-progress rows come from the warehouse and are an input; the
call `send_stale_process_alert(stale_records, config)` at line 65 is **not**
wrapped in `try`, so `alert_raises = true` makes the whole tick raise
(`.error`) before `convert_to_pending` runs. -/
def detect_and_handle_stale_processes (in_progress_records : List DriveRecord)
    (current_time : Int) (stale_threshold_factor : ℚ) (default_exp_duration : String)
    (alert_raises : Bool) : Except String StaleCounts :=
  if in_progress_records = [] then
    .ok { total_found := 0, stale_found := 0, converted_count := 0 }
  else
    let stale_records :=
      identify_stale_records current_time stale_threshold_factor default_exp_duration
        in_progress_records
    if stale_records ≠ [] then
      if alert_raises then
        .error "send_stale_process_alert raised"
      else
        let converted_count := (convert_to_pending stale_records).2
        .ok { total_found := in_progress_records.length,
              stale_found := stale_records.length,
              converted_count := converted_count }
    else
      .ok { total_found := in_progress_records.length,
            stale_found := stale_records.length,
            converted_count := 0 }

/-! ## Drive store: delete+insert replacement transaction
(`drive_scripts.execute_transaction`, `execute_delete_query`,
`get_record_before_delete`, `execute_insert_query`)

The table is a list of rows keyed by `PIPELINE_ID`. The warehouse cursor's
reported `rowcount` values are external inputs the Python code merely reads,
so they are explicit parameters; likewise whether `conn.rollback()` raises.
Transactional semantics (`autocommit = False`): pending changes become
visible only at `conn.commit()`, so on every error path the visible table is
the original one whether or not the rollback call itself succeeded. -/

structure TableRow where
  pipeline_id : String
  payload : Nat
deriving DecidableEq, Repr

inductive TxError
  | recordNotFound
  | integrityViolation
  | unexpectedRowCountDelete
  | unexpectedRowCountInsert
  | unboundLocal
deriving DecidableEq, Repr

structure TxEnv where
  delete_rowcount : Nat
  insert_rowcount : Nat
  rollback_ok : Bool
deriving Repr

structure TxOutcome where
  result : Except TxError Unit
  table : List TableRow
  rollback_failure_logged : Bool
deriving Repr

/-- `execute_transaction` composed with its callees, on one table. Failure
order follows the source: before-image SELECT (0 rows → `RecordNotFound`,
>1 rows → `IntegrityViolation`), DELETE rowcount check, INSERT rowcount
check, commit. The `except` block of `execute_transaction` attempts the
rollback; when the rollback succeeds, the bare `raise` at line 624 re-raises
the original exception. When the rollback itself raises, the handler at
lines 609-621 builds its `logger.error` payload out of `delete_query_id` and
`insert_query_id` — locals that are still **unbound** on every one of these
failure paths (`delete_query_id = execute_delete_query(...)` at line 573
never completed for the before-image and DELETE failures, and
`insert_query_id = ...` at line 577 never completed for the INSERT failure) —
so an `UnboundLocalError` is raised while evaluating the logging arguments:
nothing is logged, the `raise` at line 624 is never reached, and the
`UnboundLocalError` replaces the original error. -/
def execute_transaction (table : List TableRow) (pipeline_id : String)
    (updated_record : TableRow) (env : TxEnv) : TxOutcome :=
  let fail := fun (e : TxError) =>
    if env.rollback_ok then
      { result := .error e, table := table,
        rollback_failure_logged := false : TxOutcome }
    else
      { result := .error .unboundLocal, table := table,
        rollback_failure_logged := false : TxOutcome }
  let matching_rows := table.filter (fun row => row.pipeline_id = pipeline_id)
  if matching_rows.length = 0 then fail .recordNotFound
  else if matching_rows.length > 1 then fail .integrityViolation
  else
    let after_delete := table.filter (fun row => ¬ row.pipeline_id = pipeline_id)
    if env.delete_rowcount ≠ 1 then fail .unexpectedRowCountDelete
    else if env.insert_rowcount ≠ 1 then fail .unexpectedRowCountInsert
    else
      { result := .ok (), table := after_delete ++ [updated_record],
        rollback_failure_logged := false }

/-! ## Pending selector (`drive_scripts.get_valid_pending_records`)

The SQL text built at lines 816-829 filters on status, the two gating flags,
the identity quadruple and `QUERY_WINDOW_START_TIME <= MAX_ACCEPTED_TIME`,
orders ascending by `QUERY_WINDOW_START_TIME` and applies
`LIMIT max_pending_records`; the warehouse's execution of that query is
embedded as filter, stable sort and take over the table list. Timestamps are
epoch seconds. -/

structure PendingRow where
  pipeline_status : String
  continuity_check_performed : String
  can_fetch_historical_data : String
  pipeline_name : String
  source_name : String
  source_category : String
  source_sub_type : String
  query_window_start_time : Int
deriving DecidableEq, Repr

structure SelectorConfig where
  pipeline_name : String
  source_name : String
  source_category : String
  source_sub_type : String
  x_time_back : String
  granularity : String
  max_pending_records : Nat
deriving Repr

def pendingRowAdmissible (cfg : SelectorConfig) (max_accepted_time : Int)
    (row : PendingRow) : Bool :=
  row.pipeline_status = "PENDING"
  && row.continuity_check_performed = "YES"
  && row.can_fetch_historical_data = "YES"
  && row.pipeline_name = cfg.pipeline_name
  && row.source_name = cfg.source_name
  && row.source_category = cfg.source_category
  && row.source_sub_type = cfg.source_sub_type
  && row.query_window_start_time ≤ max_accepted_time

def pendingRowLe (a b : PendingRow) : Prop :=
  a.query_window_start_time ≤ b.query_window_start_time

instance : DecidableRel pendingRowLe :=
  fun a b => Int.decLe a.query_window_start_time b.query_window_start_time

instance : IsTotal PendingRow pendingRowLe :=
  ⟨fun a b => Int.le_total a.query_window_start_time b.query_window_start_time⟩

instance : IsTrans PendingRow pendingRowLe :=
  ⟨fun _ _ _ hab hbc => le_trans hab hbc⟩

/-- `get_valid_pending_records`: parses `x_time_back` and `granularity` with
`parse_duration_string_to_seconds` (a parse failure propagates and aborts the
tick), computes `max_accepted_time = now − (x_time_back + granularity)`
seconds, and returns the warehouse's answer to the built query. -/
def get_valid_pending_records (table : List PendingRow) (cfg : SelectorConfig)
    (now : Int) : Except String (List PendingRow) :=
  match parse_duration_string_to_seconds cfg.x_time_back with
  | .error e => .error e
  | .ok x_time_back_seconds =>
    match parse_duration_string_to_seconds cfg.granularity with
    | .error e => .error e
    | .ok granularity_seconds =>
      let total_offset_seconds := x_time_back_seconds + granularity_seconds
      let max_accepted_time := now - (total_offset_seconds : Int)
      let selected := table.filter (pendingRowAdmissible cfg max_accepted_time)
      .ok ((selected.insertionSort pendingRowLe).take cfg.max_pending_records)

/-! ## Capability arbiter (`pipeline_capabilities.determine_pipeline_capabilities`)

The four health booleans come from `check_all_connections` (external probes)
and are inputs. `dag_run_id` matters only through its presence/truthiness
(`if not config.get('dag_run_id')`). Every `send_email_alert` call site
raises a fatal exception on dispatch failure, and every logger call site
raises on logger failure; these environments are the booleans `alert_ok` and
`logger_ok`. -/

structure Capabilities where
  exit_dag : Bool
  can_process_source_to_stage : Bool
  can_process_stage_to_target : Bool
deriving DecidableEq, Repr

def determine_pipeline_capabilities (dag_run_id_present alert_ok logger_ok : Bool)
    (source_available stage_available target_available drive_available : Bool) :
    Except String Capabilities :=
  if !dag_run_id_present then .error "Required config field dag_run_id is missing"
  else if !logger_ok then .error "Critical: Logger failed"
  else if !drive_available then
    if !alert_ok then .error "Critical: Cannot send alert about drive connection failure"
    else .ok { exit_dag := true, can_process_source_to_stage := false,
               can_process_stage_to_target := false }
  else if !(source_available || stage_available || target_available) then
    if !alert_ok then .error "Critical: Cannot send alert about no data connections"
    else .ok { exit_dag := true, can_process_source_to_stage := false,
               can_process_stage_to_target := false }
  else
    let can_do_source_to_stage := source_available && stage_available
    let can_do_stage_to_target := stage_available && target_available
    if !alert_ok then .error "Critical: Cannot send alert about pipeline capabilities"
    else .ok { exit_dag := false,
               can_process_source_to_stage := can_do_source_to_stage,
               can_process_stage_to_target := can_do_stage_to_target }

/-! ## Specification-side definitions

`resetFirstEnabledInProcess` states, directly in the spec's vocabulary, what
the cascade of `convert_to_pending` does to the five phase blocks: walk the
phases in their fixed order and reset exactly the first one that is enabled
and `IN_PROCESS`, leaving every other block untouched. It exists to be
compared with the source-translated cascade (refinement), not as a
translation of the source. -/

def phasesOf (r : DriveRecord) : List PhaseBlock :=
  [r.src_stg_xfer, r.src_stg_audit, r.stg_tgt_xfer, r.stg_tgt_audit, r.src_tgt_audit]

def resetFirstEnabledInProcess : List PhaseBlock → List PhaseBlock
  | [] => []
  | b :: bs =>
    if b.enabled = some true then
      if b.status = some "IN_PROCESS" then resetPhaseBlock b :: bs
      else b :: resetFirstEnabledInProcess bs
    else b :: resetFirstEnabledInProcess bs

/-! Segment machinery for the duration-parser claims: a segment is a digit
group paired with its unit letter; `renderSegs` concatenates segments into
the character list of a duration string, and `segLookup` returns the digit
value of the first segment carrying a given unit. -/

def renderSegs : List (List Char × Char) → List Char
  | [] => []
  | (ds, u) :: rest => ds ++ u :: renderSegs rest

def segLookup (u : Char) : List (List Char × Char) → Option Nat
  | [] => none
  | (ds, u') :: rest => if u' = u then some (digitsToNat ds) else segLookup u rest

/-- A well-formed segment: non-empty digit group, non-digit unit letter. -/
def ValidSeg (p : List Char × Char) : Prop :=
  p.1 ≠ [] ∧ (∀ c ∈ p.1, c.isDigit = true) ∧ p.2.isDigit = false

instance : DecidablePred ValidSeg := fun p =>
  decidable_of_iff
    (p.1 ≠ [] ∧ (∀ c ∈ p.1, c.isDigit = true) ∧ p.2.isDigit = false) Iff.rfl

/-! Concrete rows used by counterexamples and witnesses. -/

def sampleBlock (e : Option Bool) (s : Option String) : PhaseBlock :=
  { enabled := e, status := s, start_ts := some "2025-01-01T00:00:00+00:00",
    end_ts := some "2025-01-01T01:00:00+00:00", duration := some "3600" }

/-- An in-process row past `PRE_VALIDATION` whose first phase **failed** (is
enabled but neither `COMPLETED` nor `IN_PROCESS`); no phase is `IN_PROCESS`. -/
def cexRow : DriveRecord :=
  { pipeline_status := some "IN_PROCESS", pipeline_start_time := some 0,
    pipeline_end_time := some "2025-01-01T02:00:00+00:00",
    pipeline_duration := some "7200", pipeline_exp_duration := some "1h",
    phase_completed := some "SRC_STG_XFER", retry_attempt_number := some 0,
    src_stg_xfer := sampleBlock (some true) (some "FAILED"),
    src_stg_audit := sampleBlock (some false) (some "PENDING"),
    stg_tgt_xfer := sampleBlock (some true) (some "PENDING"),
    stg_tgt_audit := sampleBlock none none,
    src_tgt_audit := sampleBlock (some true) none }

/-- Like `cexRow` but with `STG_TGT_XFER` enabled and `IN_PROCESS`. -/
def wRow : DriveRecord :=
  { cexRow with stg_tgt_xfer := sampleBlock (some true) (some "IN_PROCESS") }

/-- Like `cexRow` but with `SRC_STG_XFER` completed. -/
def wRowCompleted : DriveRecord :=
  { cexRow with src_stg_xfer := sampleBlock (some true) (some "COMPLETED") }

/-- The seven top-level fields of a row, bundled for preservation lemmas. -/
def topOf (r : DriveRecord) :=
  (r.pipeline_status, r.pipeline_start_time, r.pipeline_end_time, r.pipeline_duration,
   r.pipeline_exp_duration, r.phase_completed, r.retry_attempt_number)

/-! ## Helper lemmas about the cascade -/

theorem try_src_tgt_audit_phases (r : DriveRecord) :
    phasesOf (try_src_tgt_audit r) =
      [r.src_stg_xfer, r.src_stg_audit, r.stg_tgt_xfer, r.stg_tgt_audit]
        ++ resetFirstEnabledInProcess [r.src_tgt_audit] := by
  unfold try_src_tgt_audit
  split_ifs with h1 h2
  · simp [phasesOf, resetFirstEnabledInProcess, h1, h2]
  · simp [phasesOf, resetFirstEnabledInProcess, h1, h2]
  · simp [phasesOf, resetFirstEnabledInProcess, h1]

theorem try_stg_tgt_audit_phases (r : DriveRecord) :
    phasesOf (try_stg_tgt_audit r) =
      [r.src_stg_xfer, r.src_stg_audit, r.stg_tgt_xfer]
        ++ resetFirstEnabledInProcess [r.stg_tgt_audit, r.src_tgt_audit] := by
  unfold try_stg_tgt_audit
  split_ifs with h1 h2
  · simp [phasesOf, resetFirstEnabledInProcess, h1, h2]
  · rw [try_src_tgt_audit_phases]
    simp [resetFirstEnabledInProcess, h1, h2]
  · rw [try_src_tgt_audit_phases]
    simp [resetFirstEnabledInProcess, h1]

theorem try_stg_tgt_xfer_phases (r : DriveRecord) :
    phasesOf (try_stg_tgt_xfer r) =
      [r.src_stg_xfer, r.src_stg_audit]
        ++ resetFirstEnabledInProcess [r.stg_tgt_xfer, r.stg_tgt_audit, r.src_tgt_audit] := by
  unfold try_stg_tgt_xfer
  split_ifs with h1 h2
  · simp [phasesOf, resetFirstEnabledInProcess, h1, h2]
  · rw [try_stg_tgt_audit_phases]
    simp [resetFirstEnabledInProcess, h1, h2]
  · rw [try_stg_tgt_audit_phases]
    simp [resetFirstEnabledInProcess, h1]

theorem try_src_stg_audit_phases (r : DriveRecord) :
    phasesOf (try_src_stg_audit r) =
      [r.src_stg_xfer]
        ++ resetFirstEnabledInProcess
            [r.src_stg_audit, r.stg_tgt_xfer, r.stg_tgt_audit, r.src_tgt_audit] := by
  unfold try_src_stg_audit
  split_ifs with h1 h2
  · simp [phasesOf, resetFirstEnabledInProcess, h1, h2]
  · rw [try_stg_tgt_xfer_phases]
    simp [resetFirstEnabledInProcess, h1, h2]
  · rw [try_stg_tgt_xfer_phases]
    simp [resetFirstEnabledInProcess, h1]

theorem phasesOf_try_chain (r : DriveRecord) :
    phasesOf (try_src_stg_xfer r) = resetFirstEnabledInProcess (phasesOf r) := by
  unfold try_src_stg_xfer
  split_ifs with h1 h2
  · simp [phasesOf, resetFirstEnabledInProcess, h1, h2]
  · rw [try_src_stg_audit_phases]
    simp [phasesOf, resetFirstEnabledInProcess, h1, h2]
  · rw [try_src_stg_audit_phases]
    simp [phasesOf, resetFirstEnabledInProcess, h1]

theorem try_src_tgt_audit_top (r : DriveRecord) : topOf (try_src_tgt_audit r) = topOf r := by
  unfold try_src_tgt_audit
  split_ifs <;> rfl

theorem try_stg_tgt_audit_top (r : DriveRecord) : topOf (try_stg_tgt_audit r) = topOf r := by
  unfold try_stg_tgt_audit
  split_ifs <;> first | rfl | exact try_src_tgt_audit_top r

theorem try_stg_tgt_xfer_top (r : DriveRecord) : topOf (try_stg_tgt_xfer r) = topOf r := by
  unfold try_stg_tgt_xfer
  split_ifs <;> first | rfl | exact try_stg_tgt_audit_top r

theorem try_src_stg_audit_top (r : DriveRecord) : topOf (try_src_stg_audit r) = topOf r := by
  unfold try_src_stg_audit
  split_ifs <;> first | rfl | exact try_stg_tgt_xfer_top r

theorem try_chain_top (r : DriveRecord) : topOf (try_src_stg_xfer r) = topOf r := by
  unfold try_src_stg_xfer
  split_ifs <;> first | rfl | exact try_src_stg_audit_top r

theorem try_src_tgt_audit_completed (r : DriveRecord) (p : Phase)
    (h : (getPhase r p).status = some "COMPLETED") :
    getPhase (try_src_tgt_audit r) p = getPhase r p := by
  unfold try_src_tgt_audit
  split_ifs with h1 h2
  · cases p <;> simp_all [getPhase]
  · rfl
  · rfl

theorem try_stg_tgt_audit_completed (r : DriveRecord) (p : Phase)
    (h : (getPhase r p).status = some "COMPLETED") :
    getPhase (try_stg_tgt_audit r) p = getPhase r p := by
  unfold try_stg_tgt_audit
  split_ifs with h1 h2
  · cases p <;> simp_all [getPhase]
  · exact try_src_tgt_audit_completed r p h
  · exact try_src_tgt_audit_completed r p h

theorem try_stg_tgt_xfer_completed (r : DriveRecord) (p : Phase)
    (h : (getPhase r p).status = some "COMPLETED") :
    getPhase (try_stg_tgt_xfer r) p = getPhase r p := by
  unfold try_stg_tgt_xfer
  split_ifs with h1 h2
  · cases p <;> simp_all [getPhase]
  · exact try_stg_tgt_audit_completed r p h
  · exact try_stg_tgt_audit_completed r p h

theorem try_src_stg_audit_completed (r : DriveRecord) (p : Phase)
    (h : (getPhase r p).status = some "COMPLETED") :
    getPhase (try_src_stg_audit r) p = getPhase r p := by
  unfold try_src_stg_audit
  split_ifs with h1 h2
  · cases p <;> simp_all [getPhase]
  · exact try_stg_tgt_xfer_completed r p h
  · exact try_stg_tgt_xfer_completed r p h

theorem try_chain_completed (r : DriveRecord) (p : Phase)
    (h : (getPhase r p).status = some "COMPLETED") :
    getPhase (try_src_stg_xfer r) p = getPhase r p := by
  unfold try_src_stg_xfer
  split_ifs with h1 h2
  · cases p <;> simp_all [getPhase]
  · exact try_src_stg_audit_completed r p h
  · exact try_src_stg_audit_completed r p h

theorem getPhase_of_footer (x : DriveRecord) (s : Option String) (t : Option Int)
    (n : Option Int) (p : Phase) :
    getPhase { x with pipeline_status := s, pipeline_start_time := t,
                      retry_attempt_number := n } p = getPhase x p := by
  cases p <;> rfl

/-! ## Claim C1 -/

/-- C1 counterexample: on `cexRow` — a stale row past `PRE_VALIDATION` whose
`SRC_STG_XFER` phase is enabled and `FAILED` — the claim requires the produced
row to have that phase's status set to `PENDING` and `pipeline_end_time` set
to null; the code leaves the phase `FAILED` (it only resets an `IN_PROCESS`
phase) and leaves `pipeline_end_time` untouched. -/
theorem convert_to_pending_claim_counterexample :
    cexRow.src_stg_xfer.status = some "FAILED"
    ∧ (convert_to_pending_record cexRow).src_stg_xfer.status = some "FAILED"
    ∧ ¬ (convert_to_pending_record cexRow).src_stg_xfer.status = some "PENDING"
    ∧ ¬ (convert_to_pending_record cexRow).pipeline_end_time = none := by
  refine ⟨rfl, rfl, ?_, ?_⟩ <;> decide

/-- C1 (amended): for every row given to the resetter, the produced row has
`pipeline_status = PENDING`, null `pipeline_start_time`, and
`retry_attempt_number` incremented by exactly 1 (missing/null counted as 0).
`pipeline_end_time` and `pipeline_duration` are nulled only when
`PHASE_COMPLETED` is missing or empty (in which case no phase is touched);
otherwise they are unchanged and exactly the first phase in the fixed order
whose `P_ENABLED` is `True` and whose `P_STATUS` is `IN_PROCESS` — if any —
is reset to `PENDING` with null timestamps and duration, every other phase
being left untouched (in particular the `P_ENABLED` flag *does* gate the
reset, and `FAILED`, `PENDING` or null phases are not reset). -/
theorem convert_to_pending_amended (r : DriveRecord) :
    (convert_to_pending_record r).pipeline_status = some "PENDING"
    ∧ (convert_to_pending_record r).pipeline_start_time = none
    ∧ (convert_to_pending_record r).retry_attempt_number = some (retryOrZero r + 1)
    ∧ ((r.phase_completed = none ∨ r.phase_completed = some "") →
        (convert_to_pending_record r).pipeline_end_time = none
        ∧ (convert_to_pending_record r).pipeline_duration = none
        ∧ phasesOf (convert_to_pending_record r) = phasesOf r)
    ∧ (¬ (r.phase_completed = none ∨ r.phase_completed = some "") →
        (convert_to_pending_record r).pipeline_end_time = r.pipeline_end_time
        ∧ (convert_to_pending_record r).pipeline_duration = r.pipeline_duration
        ∧ phasesOf (convert_to_pending_record r) = resetFirstEnabledInProcess (phasesOf r)) := by
  have htop := try_chain_top r
  simp only [topOf, Prod.mk.injEq] at htop
  obtain ⟨h1, h2, h3, h4, h5, h6, h7⟩ := htop
  by_cases hpc : r.phase_completed = none ∨ r.phase_completed = some ""
  · refine ⟨?_, ?_, ?_, fun _ => ⟨?_, ?_, ?_⟩, fun h => absurd hpc h⟩
    · simp [convert_to_pending_record, hpc]
    · simp [convert_to_pending_record, hpc]
    · simp [convert_to_pending_record, hpc, retryOrZero]
    · simp [convert_to_pending_record, hpc]
    · simp [convert_to_pending_record, hpc]
    · simp [convert_to_pending_record, hpc, phasesOf]
  · refine ⟨?_, ?_, ?_, fun h => absurd h hpc, fun _ => ⟨?_, ?_, ?_⟩⟩
    · simp [convert_to_pending_record, hpc]
    · simp [convert_to_pending_record, hpc]
    · simp [convert_to_pending_record, hpc, retryOrZero, h7]
    · simp [convert_to_pending_record, hpc, h3]
    · simp [convert_to_pending_record, hpc, h4]
    · have hp := phasesOf_try_chain r
      simp only [phasesOf] at hp ⊢
      simp [convert_to_pending_record, hpc, hp]

theorem convert_to_pending_amended_witness :
    (convert_to_pending_record wRow).pipeline_status = some "PENDING"
    ∧ phasesOf (convert_to_pending_record wRow) =
        resetFirstEnabledInProcess (phasesOf wRow) :=
  ⟨(convert_to_pending_amended wRow).1,
   ((convert_to_pending_amended wRow).2.2.2.2 (by decide)).2.2⟩

/-! ## Claim C8 -/

/-- C8: the resetter never downgrades a `COMPLETED` phase — for every input
row and each of the five phases, if the phase's status is `COMPLETED` before
`convert_to_pending` runs, its whole block (status, start timestamp, end
timestamp and duration) is identical in the output row. -/
theorem convert_to_pending_preserves_completed (r : DriveRecord) (p : Phase)
    (h : (getPhase r p).status = some "COMPLETED") :
    getPhase (convert_to_pending_record r) p = getPhase r p := by
  unfold convert_to_pending_record
  by_cases hpc : r.phase_completed = none ∨ r.phase_completed = some ""
  · simp only [if_pos hpc]
    cases p <;> rfl
  · simp only [if_neg hpc]
    rw [getPhase_of_footer]
    exact try_chain_completed r p h

theorem convert_to_pending_preserves_completed_witness :
    (getPhase wRowCompleted .srcStgXfer).status = some "COMPLETED"
    ∧ getPhase (convert_to_pending_record wRowCompleted) .srcStgXfer
        = getPhase wRowCompleted .srcStgXfer :=
  ⟨rfl, convert_to_pending_preserves_completed wRowCompleted .srcStgXfer rfl⟩

/-- How `staleCheck` evaluates once both parses succeed. -/
theorem staleCheck_spec (current_time : Int) (factor : ℚ) (default_exp : String)
    (r : DriveRecord) (expected : Nat) (start_time : Int)
    (hparse : parse_duration_to_seconds (expectedDurationStr r default_exp) = .ok expected)
    (hstart : r.pipeline_start_time = some start_time) :
    staleCheck current_time factor default_exp r
      = some (decide (((current_time - start_time : Int) : ℚ) > factor * expected)) := by
  simp [staleCheck, hparse, hstart]

/-- `cexRow` (started at 0, expected `"1h"`) is stale at time 10000 under
factor 1. -/
theorem identify_cexRow_eval :
    identify_stale_records 10000 1 "1h" [cexRow] = [cexRow] := by
  have hs : staleCheck 10000 1 "1h" cexRow = some true := by
    rw [staleCheck_spec 10000 1 "1h" cexRow 3600 0 rfl rfl]
    simp only [Option.some.injEq, decide_eq_true_eq]
    norm_num
  simp [identify_stale_records, hs]

/-! ## Claim C2 -/

/-- C2 counterexample: a tick with one in-progress row that is stale (started
at time 0, checked at time 10000, expected `"1h"`, factor 1) and a raising
`send_stale_process_alert`: the claim requires the tick to log the failure,
still convert, and still return its counts; the code instead propagates the
exception (the call at line 65 is not wrapped), so the tick returns no counts
and `convert_to_pending` never runs. -/
theorem stale_alert_failure_counterexample :
    detect_and_handle_stale_processes [cexRow] 10000 1 "1h" true
      = .error "send_stale_process_alert raised" := by
  simp [detect_and_handle_stale_processes, identify_cexRow_eval]

/-- C2 (amended): alert dispatch on the reclaimer path is **not** best-effort:
whenever the stale set is non-empty, a raising `send_stale_process_alert`
propagates out of `detect_and_handle_stale_processes` — `convert_to_pending`
does not run and no counts are returned — while with a successful dispatch
the tick returns its counts with every stale row converted. -/
theorem stale_alert_failure_propagates (in_progress : List DriveRecord)
    (current_time : Int) (factor : ℚ) (default_exp : String)
    (hne : identify_stale_records current_time factor default_exp in_progress ≠ []) :
    detect_and_handle_stale_processes in_progress current_time factor default_exp true
      = .error "send_stale_process_alert raised"
    ∧ detect_and_handle_stale_processes in_progress current_time factor default_exp false
      = .ok { total_found := in_progress.length,
              stale_found :=
                (identify_stale_records current_time factor default_exp in_progress).length,
              converted_count :=
                (identify_stale_records current_time factor default_exp in_progress).length } := by
  have hipne : in_progress ≠ [] := by
    intro h
    rw [h] at hne
    exact hne rfl
  constructor
  · simp [detect_and_handle_stale_processes, hipne, hne]
  · simp [detect_and_handle_stale_processes, hipne, hne, convert_to_pending]

theorem stale_alert_failure_propagates_witness :
    detect_and_handle_stale_processes [cexRow] 10000 1 "1h" true
      = .error "send_stale_process_alert raised"
    ∧ detect_and_handle_stale_processes [cexRow] 10000 1 "1h" false
      = .ok { total_found := 1, stale_found := 1, converted_count := 1 } := by
  have h := stale_alert_failure_propagates [cexRow] 10000 1 "1h"
    (by rw [identify_cexRow_eval]; exact List.cons_ne_nil _ _)
  refine ⟨h.1, ?_⟩
  rw [h.2, identify_cexRow_eval]
  rfl

/-! ## Claim C3 -/

/-- C3 counterexample: one-row table keyed `"A"`, DELETE rowcount reported 0,
rollback failing. The claim requires the rollback failure to be logged and
the original unexpected-row-count error to be the one surfaced; the code's
rollback-failure handler instead trips over the unbound
`delete_query_id`/`insert_query_id` locals, so the caller sees
`UnboundLocalError` — not the unexpected-row-count error — and the rollback
failure is never logged. -/
theorem execute_transaction_rollback_failure_counterexample :
    (execute_transaction [⟨"A", 7⟩] "A" ⟨"A", 8⟩ ⟨0, 1, false⟩).result
        = .error .unboundLocal
    ∧ ¬ (execute_transaction [⟨"A", 7⟩] "A" ⟨"A", 8⟩ ⟨0, 1, false⟩).result
        = .error .unexpectedRowCountDelete
    ∧ (execute_transaction [⟨"A", 7⟩] "A" ⟨"A", 8⟩ ⟨0, 1, false⟩).rollback_failure_logged
        = false := by
  refine ⟨rfl, ?_, rfl⟩
  decide

/-- C3 (amended): when the before-image SELECT sees exactly one row but the
DELETE's reported row count differs from 1, the operation fails and the
transaction is rolled back, so the visible table is unchanged in every case.
When the rollback call succeeds, the surfaced error is the original
unexpected-row-count error. But when the rollback itself also fails, the
handler's `logger.error` payload references `delete_query_id` and
`insert_query_id`, locals left unbound by this failure path, so an
`UnboundLocalError` replaces the original error and the rollback failure is
**not** logged. -/
theorem execute_transaction_delete_rowcount_amended (table : List TableRow)
    (pipeline_id : String) (updated : TableRow) (env : TxEnv)
    (hone : (table.filter (fun row => row.pipeline_id = pipeline_id)).length = 1)
    (hdel : env.delete_rowcount ≠ 1) :
    (execute_transaction table pipeline_id updated env).table = table
    ∧ (env.rollback_ok = true →
        (execute_transaction table pipeline_id updated env).result
          = .error .unexpectedRowCountDelete)
    ∧ (env.rollback_ok = false →
        (execute_transaction table pipeline_id updated env).result
          = .error .unboundLocal)
    ∧ (execute_transaction table pipeline_id updated env).rollback_failure_logged
        = false := by
  by_cases hrb : env.rollback_ok = true
  · refine ⟨?_, fun h => ?_, fun h => ?_, ?_⟩ <;>
      simp_all [execute_transaction, hone, hdel]
  · refine ⟨?_, fun h => ?_, fun h => ?_, ?_⟩ <;>
      simp_all [execute_transaction, hone, hdel]

theorem execute_transaction_delete_rowcount_amended_witness :
    (execute_transaction [⟨"A", 7⟩] "A" ⟨"A", 8⟩ ⟨0, 1, true⟩).table = [⟨"A", 7⟩]
    ∧ (execute_transaction [⟨"A", 7⟩] "A" ⟨"A", 8⟩ ⟨0, 1, true⟩).result
        = .error .unexpectedRowCountDelete
    ∧ (execute_transaction [⟨"A", 7⟩] "A" ⟨"A", 8⟩ ⟨0, 1, false⟩).result
        = .error .unboundLocal :=
  ⟨(execute_transaction_delete_rowcount_amended [⟨"A", 7⟩] "A" ⟨"A", 8⟩ ⟨0, 1, true⟩
      (by decide) (by decide)).1,
   (execute_transaction_delete_rowcount_amended [⟨"A", 7⟩] "A" ⟨"A", 8⟩ ⟨0, 1, true⟩
      (by decide) (by decide)).2.1 rfl,
   (execute_transaction_delete_rowcount_amended [⟨"A", 7⟩] "A" ⟨"A", 8⟩ ⟨0, 1, false⟩
      (by decide) (by decide)).2.2.1 rfl⟩

/-! ## Claim C5 -/

/-- C5: with `dag_run_id` present (and, for the first conjunct, alerting and
logging succeeding), the arbiter's decision is the stated pure function of
the four health booleans: `exit_dag` is true with both capability flags false
exactly when drive is unavailable or source, stage and target are all
unavailable; otherwise `exit_dag` is false, `can_src_to_stg = source ∧ stage`
and `can_stg_to_tgt = stage ∧ target`. The second conjunct shows the decision
is independent of the alert/logger environments: under any environment the
arbiter either raises or returns that same decision. -/
theorem determine_pipeline_capabilities_decision_table :
    ∀ source stage target drive : Bool,
      determine_pipeline_capabilities true true true source stage target drive
        = .ok { exit_dag := !drive || (!source && !stage && !target),
                can_process_source_to_stage := drive && (source && stage),
                can_process_stage_to_target := drive && (stage && target) }
      ∧ ∀ alert_ok logger_ok : Bool,
          (determine_pipeline_capabilities alert_ok logger_ok true source stage target drive).isOk
              = false
          ∨ determine_pipeline_capabilities alert_ok logger_ok true source stage target drive
              = determine_pipeline_capabilities true true true source stage target drive := by
  decide

/-! ## Claim C6 -/

/-- C6 (code bug in `stale_detection_functions.parse_duration_to_seconds`):
the claim — `"0s"` parses to 0 and the failure fires exactly on absence of
any `(digits)(unit)` match — matches both the spec and the drive-store parser
`parse_duration_string_to_seconds`, which tracks a `valid_unit_found` flag
and returns 0 on `"0s"`. The stale-module parser instead raises whenever the
computed **sum** is 0, contradicting its own `"no valid units found"`
comment and error message: on `"0s"` a unit does match, yet it raises. -/
theorem duration_parser_zero_seconds_divergence :
    parse_duration_string_to_seconds "0s" = .ok 0
    ∧ (parse_duration_to_seconds "0s").isOk = false
    ∧ parse_duration_to_seconds "0s"
        = .error "No valid duration units found" := by
  refine ⟨?_, ?_, ?_⟩ <;> rfl

/-! ## Claim C7 -/

/-- C7: for every in-process row whose expected duration parses and whose
`pipeline_start_time` is a valid timestamp, the evaluator classifies the row
as stale iff `current_time − pipeline_start_time`, in seconds, is strictly
greater than `stale_threshold_factor ×` the expected duration in seconds
(membership in the returned subset, which preserves input order). -/
theorem identify_stale_records_iff (current_time : Int) (factor : ℚ)
    (default_exp : String) (records : List DriveRecord) (r : DriveRecord)
    (expected : Nat) (start_time : Int)
    (hparse : parse_duration_to_seconds (expectedDurationStr r default_exp) = .ok expected)
    (hstart : r.pipeline_start_time = some start_time) :
    r ∈ identify_stale_records current_time factor default_exp records
      ↔ r ∈ records ∧ ((current_time - start_time : Int) : ℚ) > factor * expected := by
  rw [identify_stale_records, List.mem_filter]
  constructor
  · rintro ⟨hmem, hp⟩
    refine ⟨hmem, ?_⟩
    simp only [staleCheck, hparse, hstart, decide_eq_true_eq] at hp
    simpa using hp
  · rintro ⟨hmem, hgt⟩
    refine ⟨hmem, ?_⟩
    simp only [staleCheck, hparse, hstart, decide_eq_true_eq]
    simpa using hgt

/-- The spec's S4 instance: a row started 3700 s ago with expected duration
`"1h"` is stale under factor 1 (3700 > 3600) and not under factor 2
(3700 < 7200). -/
theorem identify_stale_records_iff_witness :
    (cexRow ∈ identify_stale_records 3700 1 "unused" [cexRow])
    ∧ ¬ (cexRow ∈ identify_stale_records 3700 2 "unused" [cexRow]) := by
  have h1 := identify_stale_records_iff 3700 1 "unused" [cexRow] cexRow 3600 0 rfl rfl
  have h2 := identify_stale_records_iff 3700 2 "unused" [cexRow] cexRow 3600 0 rfl rfl
  constructor
  · exact h1.mpr ⟨List.mem_singleton_self _, by norm_num⟩
  · intro hmem
    have := (h2.mp hmem).2
    norm_num at this

/-! ## Claim C4 -/

/-- C4: whenever the pending selector succeeds (both duration strings parse,
to `x` and `g` seconds), every returned row comes from the table and
satisfies the full admission predicate — `PENDING` status, both gating flags
`'YES'`, matching identity quadruple, and
`query_window_start_time ≤ now − x − g` — the result is sorted ascending by
`query_window_start_time`, and its length is at most `max_pending_records`. -/
theorem get_valid_pending_records_spec (table : List PendingRow) (cfg : SelectorConfig)
    (now : Int) (x g : Nat) (res : List PendingRow)
    (hx : parse_duration_string_to_seconds cfg.x_time_back = .ok x)
    (hg : parse_duration_string_to_seconds cfg.granularity = .ok g)
    (hres : get_valid_pending_records table cfg now = .ok res) :
    (∀ row ∈ res, row ∈ table
        ∧ pendingRowAdmissible cfg (now - ((x + g : Nat) : Int)) row = true
        ∧ row.query_window_start_time ≤ now - (x : Int) - (g : Int))
    ∧ res.Sorted pendingRowLe
    ∧ res.length ≤ cfg.max_pending_records := by
  rw [get_valid_pending_records, hx, hg] at hres
  simp only [Except.ok.injEq] at hres
  subst hres
  refine ⟨?_, ?_, ?_⟩
  · intro row hrow
    have hsort : row ∈ (table.filter
        (pendingRowAdmissible cfg (now - ((x + g : Nat) : Int)))).insertionSort pendingRowLe :=
      (List.take_sublist _ _).mem hrow
    rw [List.mem_insertionSort] at hsort
    obtain ⟨hmem, hadm⟩ := List.mem_filter.mp hsort
    refine ⟨hmem, hadm, ?_⟩
    simp only [pendingRowAdmissible, Bool.and_eq_true, decide_eq_true_eq] at hadm
    push_cast at hadm ⊢
    omega
  · exact List.Pairwise.sublist (List.take_sublist _ _)
      (List.sorted_insertionSort pendingRowLe _)
  · rw [List.length_take]
    exact min_le_left _ _

theorem get_valid_pending_records_spec_witness :
    (∀ row ∈ ([⟨"PENDING", "YES", "YES", "p", "s", "c", "t", 0⟩]
        : List PendingRow), row.query_window_start_time ≤ (10000 : Int) - 3600 - 900)
    ∧ ([⟨"PENDING", "YES", "YES", "p", "s", "c", "t", 0⟩] : List PendingRow).Sorted
        pendingRowLe
    ∧ ([⟨"PENDING", "YES", "YES", "p", "s", "c", "t", 0⟩] : List PendingRow).length
        ≤ 5 := by
  have h := get_valid_pending_records_spec
    [⟨"PENDING", "YES", "YES", "p", "s", "c", "t", 0⟩]
    ⟨"p", "s", "c", "t", "1h", "15m", 5⟩ 10000 3600 900
    [⟨"PENDING", "YES", "YES", "p", "s", "c", "t", 0⟩] rfl rfl (by rfl)
  exact ⟨fun row hrow => ((h.1 row hrow).2.2 : _), h.2.1, h.2.2⟩

/-! ## Helper lemmas about the leftmost-match scan -/

/-- Scanning a block of digits just moves it into the accumulated run. -/
theorem findUnitMatchAux_digits (u : Char) :
    ∀ (ds run rest : List Char), (∀ c ∈ ds, c.isDigit = true) →
      findUnitMatchAux u run (ds ++ rest) = findUnitMatchAux u (run ++ ds) rest := by
  intro ds
  induction ds with
  | nil =>
    intro run rest _
    simp
  | cons c ds' ih =>
    intro run rest hd
    have hc : c.isDigit = true := hd c (by simp)
    simp only [List.cons_append, findUnitMatchAux, hc, if_true, List.append_eq]
    rw [ih (run ++ [c]) rest (fun x hx => hd x (by simp [hx]))]
    simp

/-- On a rendering of well-formed segments the scan returns the value of the
first segment carrying the searched unit. -/
theorem findUnitMatchAux_renderSegs (u : Char) :
    ∀ L : List (List Char × Char), (∀ p ∈ L, ValidSeg p) →
      findUnitMatchAux u [] (renderSegs L) = segLookup u L := by
  intro L
  induction L with
  | nil =>
    intro _
    rfl
  | cons p L' ih =>
    intro hv
    obtain ⟨ds, u'⟩ := p
    obtain ⟨hne, hdig, hu'⟩ := hv (ds, u') (by simp)
    replace hne : ds ≠ [] := hne
    replace hdig : ∀ c ∈ ds, c.isDigit = true := hdig
    replace hu' : u'.isDigit = false := hu'
    have hv' : ∀ q ∈ L', ValidSeg q := fun q hq => hv q (by simp [hq])
    have hemp : ds.isEmpty = false := by
      cases ds
      · exact absurd rfl hne
      · rfl
    show findUnitMatchAux u [] (ds ++ u' :: renderSegs L') = _
    rw [findUnitMatchAux_digits u ds [] (u' :: renderSegs L') hdig]
    simp only [List.nil_append]
    by_cases huu : u' = u
    · subst huu
      simp [findUnitMatchAux, hu', hemp, segLookup]
    · simp [findUnitMatchAux, hu', huu, hemp, segLookup, ih hv']

/-- With pairwise-distinct unit letters, the first-segment lookup is
invariant under permutation of the segments. -/
theorem segLookup_perm (u : Char) {L1 L2 : List (List Char × Char)}
    (hp : L1.Perm L2) : (L1.map Prod.snd).Nodup → segLookup u L1 = segLookup u L2 := by
  induction hp with
  | nil =>
    intro _
    rfl
  | cons p hp ih =>
    intro hnd
    obtain ⟨ds, u'⟩ := p
    simp only [List.map_cons, List.nodup_cons] at hnd
    by_cases huu : u' = u
    · simp [segLookup, huu]
    · simp [segLookup, huu, ih hnd.2]
  | swap x y l =>
    intro hnd
    obtain ⟨ds1, u1⟩ := x
    obtain ⟨ds2, u2⟩ := y
    simp only [List.map_cons, List.nodup_cons, List.mem_cons] at hnd
    by_cases h1 : u2 = u <;> by_cases h2 : u1 = u
    · exact absurd (h2.trans h1.symm) (fun h => hnd.1 (Or.inl h.symm))
    · simp [segLookup, h1, h2]
    · simp [segLookup, h1, h2]
    · simp [segLookup, h1, h2]
  | trans h1 h2 ih1 ih2 =>
    intro hnd
    exact (ih1 hnd).trans (ih2 ((h1.map Prod.snd).nodup_iff.mp hnd))

/-- Both duration parsers give the same answer on any two renderings of the
same distinct-unit segment multiset. -/
theorem parse_eq_of_seg_perm (L L' : List (List Char × Char))
    (hv : ∀ p ∈ L, ValidSeg p) (hnd : (L.map Prod.snd).Nodup) (hp : L.Perm L') :
    parse_duration_string_to_seconds (String.mk (renderSegs L))
      = parse_duration_string_to_seconds (String.mk (renderSegs L'))
    ∧ parse_duration_to_seconds (String.mk (renderSegs L))
      = parse_duration_to_seconds (String.mk (renderSegs L')) := by
  have hv' : ∀ p ∈ L', ValidSeg p := fun p hmem => hv p (hp.mem_iff.mpr hmem)
  have key : ∀ u2 : Char,
      findUnitMatch u2 (String.mk (renderSegs L)).data
        = findUnitMatch u2 (String.mk (renderSegs L')).data := by
    intro u2
    show findUnitMatchAux u2 [] (renderSegs L) = findUnitMatchAux u2 [] (renderSegs L')
    rw [findUnitMatchAux_renderSegs u2 L hv, findUnitMatchAux_renderSegs u2 L' hv',
      segLookup_perm u2 hp hnd]
  constructor <;>
    simp only [parse_duration_string_to_seconds, parse_duration_to_seconds, key]

/-! ## Claim C9 -/

/-- C9: both duration parsers are pure functions (`parse(s) = parse(s)`),
`"2d3h"` and `"3h2d"` both parse to `2·86400 + 3·3600 = 183600`, and in
general permuting the per-unit segments of a duration string (segments with
pairwise-distinct unit letters) never changes the result of either parser. -/
theorem duration_parse_pure_and_segment_reorder :
    (∀ s : String, parse_duration_string_to_seconds s = parse_duration_string_to_seconds s
        ∧ parse_duration_to_seconds s = parse_duration_to_seconds s)
    ∧ parse_duration_string_to_seconds "2d3h" = .ok 183600
    ∧ parse_duration_string_to_seconds "3h2d" = .ok 183600
    ∧ parse_duration_to_seconds "2d3h" = .ok 183600
    ∧ parse_duration_to_seconds "3h2d" = .ok 183600
    ∧ ∀ L L' : List (List Char × Char), (∀ p ∈ L, ValidSeg p) →
        (L.map Prod.snd).Nodup → L.Perm L' →
        parse_duration_string_to_seconds (String.mk (renderSegs L))
          = parse_duration_string_to_seconds (String.mk (renderSegs L'))
        ∧ parse_duration_to_seconds (String.mk (renderSegs L))
          = parse_duration_to_seconds (String.mk (renderSegs L')) :=
  ⟨fun _ => ⟨rfl, rfl⟩, by decide, by decide, by decide, by decide,
   fun L L' hv hnd hp => parse_eq_of_seg_perm L L' hv hnd hp⟩

theorem duration_parse_pure_and_segment_reorder_witness :
    parse_duration_string_to_seconds (String.mk (renderSegs [(['2'], 'd'), (['3'], 'h')]))
      = parse_duration_string_to_seconds (String.mk (renderSegs [(['3'], 'h'), (['2'], 'd')]))
    ∧ parse_duration_string_to_seconds (String.mk (renderSegs [(['2'], 'd'), (['3'], 'h')]))
      = .ok 183600 :=
  ⟨(duration_parse_pure_and_segment_reorder.2.2.2.2.2
      [(['2'], 'd'), (['3'], 'h')] [(['3'], 'h'), (['2'], 'd')]
      (by decide) (by decide) (by decide)).1,
   duration_parse_pure_and_segment_reorder.2.1⟩

/-! ## Claim C10 -/

/-- C10: each of the four unit letters contributes at most one term: the scan
returns the **first** `(digits)(unit)` occurrence for a unit, whatever
follows it — so any later occurrence of the same unit is silently ignored
and `"1h2h"` parses to 3600, the same as `"1h"`, in both parsers. -/
theorem duration_parser_first_match_only :
    (∀ (u : Char) (ds rest : List Char), u.isDigit = false → ds ≠ [] →
        (∀ c ∈ ds, c.isDigit = true) →
        findUnitMatch u (ds ++ u :: rest) = some (digitsToNat ds))
    ∧ parse_duration_string_to_seconds "1h2h" = .ok 3600
    ∧ parse_duration_to_seconds "1h2h" = .ok 3600
    ∧ parse_duration_string_to_seconds "1h" = .ok 3600
    ∧ parse_duration_to_seconds "1h" = .ok 3600 := by
  refine ⟨?_, by decide, by decide, by decide, by decide⟩
  intro u ds rest hu hne hd
  have hemp : ds.isEmpty = false := by
    cases ds
    · exact absurd rfl hne
    · rfl
  show findUnitMatchAux u [] (ds ++ u :: rest) = _
  rw [findUnitMatchAux_digits u ds [] (u :: rest) hd]
  simp [findUnitMatchAux, hu, hemp]

theorem duration_parser_first_match_only_witness :
    findUnitMatch 'h' (['1'] ++ 'h' :: ['2', 'h']) = some (digitsToNat ['1']) :=
  duration_parser_first_match_only.1 'h' ['1'] ['2', 'h'] rfl
    (by decide) (by decide)

end Ingestion
